import Mathlib

/-!
Shallow embedding of `open_webui/storage/s3_storage_provider.py` (class
`S3StorageProvider`, implementing the abstract `StorageProvider` from
`open_webui/storage/base_storage_provider.py`).

Modelling choices:
* Python strings are `List Char` (`Str`); file contents are `List Nat` (`Bytes`).
* The S3 backend is an association list from (bucket, key) to bytes
  (`S3State`); the aioboto3 SDK calls `put_object`, `get_object`,
  `download_fileobj`, `delete_object` and the bulk
  `objects.filter(Prefix=...).delete()` are modelled as pure functions on
  that state.
* A possible failure of the single SDK request an operation issues is an
  explicit `fault : Option String` argument (the exception message);
  `fault = none` means the backend request succeeds.
* Each method returns an `MRes`: the Python return value or raised
  exception (`Except Err`), the backend state after the call, the
  provider object after the call (the methods assign no fields, which the
  embedding makes visible), and the list of SDK requests issued.
* Python's `str.split(sep)` and `str.split(sep, 1)` are `pySplit` and
  `splitOnce` below, with the same semantics for non-empty separators.
-/

namespace S3Storage

/-- Python strings, as lists of characters. -/
abbrev Str := List Char

/-- Raw file contents, as lists of bytes. -/
abbrev Bytes := List Nat

/-- `isPre sep s` is true iff `sep` is a leading segment of `s`. -/
def isPre : Str → Str → Bool
  | [], _ => true
  | _ :: _, [] => false
  | a :: as, b :: bs => a == b && isPre as bs

/-- `hasSubstr sep s` is true iff `sep` occurs contiguously inside `s`
(Python's `sep in s`). -/
def hasSubstr (sep : Str) : Str → Bool
  | [] => isPre sep []
  | s@(_ :: rest) => isPre sep s || hasSubstr sep rest

/-- First split: Python's `s.split(sep, 1)` when it finds an occurrence.
Returns `some (before, after)` for the first occurrence of `sep` in `s`,
`none` when `sep` does not occur (or `sep` is empty, a case no caller uses). -/
def splitOnce (sep : Str) : Str → Option (Str × Str)
  | [] => none
  | c :: rest =>
    if sep = [] then none
    else if isPre sep (c :: rest) then some ([], (c :: rest).drop sep.length)
    else
      match splitOnce sep rest with
      | none => none
      | some (a, b) => some (c :: a, b)

theorem splitOnce_some_length {sep : Str} :
    ∀ {s a b : Str}, splitOnce sep s = some (a, b) → b.length < s.length := by
  intro s
  induction s with
  | nil => intro a b h; simp [splitOnce] at h
  | cons c rest ih =>
    intro a b h
    unfold splitOnce at h
    by_cases hsep : sep = []
    · simp [hsep] at h
    · rw [if_neg hsep] at h
      by_cases hp : isPre sep (c :: rest) = true
      · rw [if_pos hp] at h
        have hb : b = (c :: rest).drop sep.length := by
          cases h; rfl
        have hlen : 0 < sep.length := List.length_pos.mpr hsep
        subst hb
        simp [List.length_drop]
        omega
      · rw [if_neg hp] at h
        cases heq : splitOnce sep rest with
        | none => rw [heq] at h; cases h
        | some p =>
          obtain ⟨a2, b2⟩ := p
          rw [heq] at h
          have hb : b = b2 := by cases h; rfl
          subst hb
          have := ih heq
          simp
          omega

/-- Python's `s.split(sep)` for a non-empty separator: the list of
segments of `s` between occurrences of `sep`. -/
def pySplit (sep : Str) (s : Str) : List Str :=
  match h : splitOnce sep s with
  | none => [s]
  | some (a, b) => a :: pySplit sep b
termination_by s.length
decreasing_by exact splitOnce_some_length h

/-- The separator literal `"s3://"`. -/
def s3sep : Str := ['s', '3', ':', '/', '/']

/-- The separator literal `"/"`. -/
def slashSep : Str := ['/']

/-- Python exceptions that `_bucket_name_and_key` can raise: an
`IndexError` from `[1]` on a too-short list, a `ValueError` from unpacking
a one-element split. -/
inductive PyExc where
  | indexError (msg : String)
  | valueError (msg : String)
deriving DecidableEq

/-- The `str(e)` text of a parse exception. -/
def PyExc.msg : PyExc → String
  | .indexError m => m
  | .valueError m => m

/-- Embedding of `S3StorageProvider._bucket_name_and_key`:
`s3_path.split("s3://")[1].split("/", 1)` unpacked into a pair. -/
def bucket_name_and_key (s3Path : Str) : Except PyExc (Str × Str) :=
  match (pySplit s3sep s3Path).get? 1 with
  | none => .error (.indexError "list index out of range")
  | some rest =>
    match splitOnce slashSep rest with
    | none => .error (.valueError "not enough values to unpack (expected 2, got 1)")
    | some (b, k) => .ok (b, k)

/-- The S3 backend: a finite map from (bucket, key) to stored bytes,
as an association list (first entry wins). -/
abbrev S3State := List ((Str × Str) × Bytes)

/-- Backend lookup: the bytes stored under (bucket, key), if any. -/
def getObj (b k : Str) : S3State → Option Bytes
  | [] => none
  | e :: rest => if e.1 = (b, k) then some e.2 else getObj b k rest

/-- Backend effect of a successful `put_object`: store `body` under
(bucket, key), replacing any previous object there. -/
def putObj (b k : Str) (body : Bytes) (s : S3State) : S3State :=
  ((b, k), body) :: delObjEntries b k s
where
  /-- Remove every entry at (bucket, key). -/
  delObjEntries (b k : Str) : S3State → S3State
    | [] => []
    | e :: rest =>
      if e.1 = (b, k) then delObjEntries b k rest else e :: delObjEntries b k rest

/-- Backend effect of a successful `delete_object`: remove the object at
(bucket, key); S3 reports success whether or not the key existed. -/
def delObj (b k : Str) (s : S3State) : S3State :=
  putObj.delObjEntries b k s

/-- Backend effect of a successful
`bucket.objects.filter(Prefix=pfx).delete()`: remove every object of
bucket `b` whose key starts with `pfx`. -/
def delByPfx (b pfx : Str) : S3State → S3State
  | [] => []
  | e :: rest =>
    if e.1.1 = b ∧ isPre pfx e.1.2 = true then delByPfx b pfx rest
    else e :: delByPfx b pfx rest

/-- One SDK request to the backend, as issued by the provider methods. -/
inductive SDKReq where
  | putObject (bucket key : Str) (body : Bytes)
  | getObject (bucket key : Str)
  | downloadFileobj (bucket key : Str)
  | deleteObject (bucket key : Str)
  | bulkDelete (bucket pfx : Str)
deriving DecidableEq

/-- A Python exception escaping a provider method: `ValueError` (empty
upload) or `RuntimeError` (everything re-raised by the `except` blocks). -/
inductive Err where
  | valueError (msg : String)
  | runtimeError (msg : String)
deriving DecidableEq

/-- The provider object: the fields set in `S3StorageProvider.__init__`
(`self.bucket_name` and `self.bucket_prefix`; the `aioboto3.Session` is
part of the SDK model). `bucketPfx` embeds the field `bucket_prefix`. -/
structure S3StorageProvider where
  bucketName : Str
  bucketPfx : Str
deriving DecidableEq

/-- Result of one method call: the returned value or raised exception,
the backend state after the call, the provider object after the call, and
the SDK requests issued during the call. -/
structure MRes (α : Type) where
  result : Except Err α
  state : S3State
  provider : S3StorageProvider
  trace : List SDKReq

/-- Modelled from the spec: `ERROR_MESSAGES.EMPTY_CONTENT` comes from
`open_webui.constants`, which is not among the sources; only its identity
as a fixed message string matters here. -/
def EMPTY_CONTENT : String := "EMPTY_CONTENT"

/-- The message text of the `AttributeError` raised by evaluating
`self.STREAMING_CHUNK_SIZE` on a class that never defines it. -/
def chunkSizeAttrErr : String :=
  "AttributeError: S3StorageProvider object has no attribute STREAMING_CHUNK_SIZE"

/-- The class body, `__init__`, and the base class define no attribute
`STREAMING_CHUNK_SIZE`, so the attribute lookup in `get_file` finds
nothing: the looked-up value is `none`. -/
def STREAMING_CHUNK_SIZE : Option Nat := none

/-- `Body.iter_chunks(sz)`: the stored bytes cut into chunks of `sz`
(the degenerate size 0 never arises: the lookup above yields no size). -/
def chunksOf (sz : Nat) (b : Bytes) : List Bytes :=
  if h : sz = 0 ∨ b = [] then if b = [] then [] else [b]
  else b.take sz :: chunksOf sz (b.drop sz)
termination_by b.length
decreasing_by
  push_neg at h
  simp [List.length_drop]
  cases b with
  | nil => exact absurd rfl h.2
  | cons x xs => simp; omega

/-- Embedding of `S3StorageProvider.upload_file`.  Reads the contents
(passed directly as `contents`), raises `ValueError` on empty contents,
otherwise issues one `put_object` with key `bucket_prefix + "/" + filename`
and returns the contents and the path
`"s3://" + bucket_name + "/" + bucket_prefix + "/" + filename`;
any exception from the request becomes a `RuntimeError`. -/
def upload_file (p : S3StorageProvider) (contents : Bytes) (filename : Str)
    (fault : Option String) (s : S3State) : MRes (Bytes × Str) :=
  if contents = [] then
    ⟨.error (.valueError EMPTY_CONTENT), s, p, []⟩
  else
    match fault with
    | some e =>
        ⟨.error (.runtimeError ("Error uploading file to S3: " ++ e)), s, p,
         [.putObject p.bucketName (p.bucketPfx ++ slashSep ++ filename) contents]⟩
    | none =>
        ⟨.ok (contents, s3sep ++ p.bucketName ++ slashSep ++ p.bucketPfx ++ slashSep ++ filename),
         putObj p.bucketName (p.bucketPfx ++ slashSep ++ filename) contents s, p,
         [.putObject p.bucketName (p.bucketPfx ++ slashSep ++ filename) contents]⟩

/-- Embedding of `S3StorageProvider.get_file` (driving the async
generator to exhaustion).  Parses the path, issues one `get_object`, then
evaluates `self.STREAMING_CHUNK_SIZE` for `iter_chunks`; every exception
inside the `try` (parse error, request failure, missing key, the
attribute lookup) is re-raised as `RuntimeError`. -/
def get_file (p : S3StorageProvider) (path : Str) (fault : Option String)
    (s : S3State) : MRes (List Bytes) :=
  match bucket_name_and_key path with
  | .error exc =>
      ⟨.error (.runtimeError ("Error downloading file " ++ String.mk path ++ " from S3: " ++ exc.msg)),
       s, p, []⟩
  | .ok (b, k) =>
    match fault with
    | some e =>
        ⟨.error (.runtimeError ("Error downloading file " ++ String.mk path ++ " from S3: " ++ e)),
         s, p, [.getObject b k]⟩
    | none =>
      match getObj b k s with
      | none =>
          ⟨.error (.runtimeError ("Error downloading file " ++ String.mk path ++ " from S3: NoSuchKey")),
           s, p, [.getObject b k]⟩
      | some body =>
        match STREAMING_CHUNK_SIZE with
        | none =>
            ⟨.error (.runtimeError ("Error downloading file " ++ String.mk path ++ " from S3: " ++ chunkSizeAttrErr)),
             s, p, [.getObject b k]⟩
        | some sz => ⟨.ok (chunksOf sz body), s, p, [.getObject b k]⟩

/-- Embedding of `S3StorageProvider.as_local_file`.  Parses the path,
creates a temporary file (its OS-chosen name is the argument `tmpName`),
issues one `download_fileobj` into it and yields the temporary file name;
on success the result carries the yielded name and the bytes the
temporary file holds while the context is open.  Every exception is
re-raised as `RuntimeError`. -/
def as_local_file (p : S3StorageProvider) (path : Str) (tmpName : String)
    (fault : Option String) (s : S3State) : MRes (String × Bytes) :=
  match bucket_name_and_key path with
  | .error exc =>
      ⟨.error (.runtimeError ("Error downloading file " ++ String.mk path ++ " from S3: " ++ exc.msg)),
       s, p, []⟩
  | .ok (b, k) =>
    match fault with
    | some e =>
        ⟨.error (.runtimeError ("Error downloading file " ++ String.mk path ++ " from S3: " ++ e)),
         s, p, [.downloadFileobj b k]⟩
    | none =>
      match getObj b k s with
      | none =>
          ⟨.error (.runtimeError ("Error downloading file " ++ String.mk path ++ " from S3: NoSuchKey")),
           s, p, [.downloadFileobj b k]⟩
      | some body => ⟨.ok (tmpName, body), s, p, [.downloadFileobj b k]⟩

/-- Embedding of `S3StorageProvider.delete_file`.  Issues one
`delete_object` with `Bucket=self.bucket_name` and `Key=path` — the path
string itself, not a parsed key; any exception becomes `RuntimeError`. -/
def delete_file (p : S3StorageProvider) (path : Str) (fault : Option String)
    (s : S3State) : MRes Unit :=
  match fault with
  | some e =>
      ⟨.error (.runtimeError ("Error deleting file " ++ String.mk path ++ " from S3: " ++ e)),
       s, p, [.deleteObject p.bucketName path]⟩
  | none =>
      ⟨.ok (), delObj p.bucketName path s, p, [.deleteObject p.bucketName path]⟩

/-- Embedding of `S3StorageProvider.delete_all_files`.  Issues one bulk
`objects.filter(Prefix=self.bucket_prefix).delete()` on
`self.bucket_name`; any exception becomes `RuntimeError`. -/
def delete_all_files (p : S3StorageProvider) (fault : Option String)
    (s : S3State) : MRes Unit :=
  match fault with
  | some e =>
      ⟨.error (.runtimeError ("Error deleting all files from S3: " ++ e)), s, p,
       [.bulkDelete p.bucketName p.bucketPfx]⟩
  | none =>
      ⟨.ok (), delByPfx p.bucketName p.bucketPfx s, p,
       [.bulkDelete p.bucketName p.bucketPfx]⟩

/-- One call to any of the five provider methods, with its inputs. -/
inductive OpCall where
  | upload (contents : Bytes) (filename : Str)
  | get (path : Str)
  | asLocal (path : Str) (tmpName : String)
  | delete (path : Str)
  | deleteAll

/-- The provider object after running a method call. -/
def opProvider (p : S3StorageProvider) (c : OpCall) (fault : Option String)
    (s : S3State) : S3StorageProvider :=
  match c with
  | .upload contents fn => (upload_file p contents fn fault s).provider
  | .get path => (get_file p path fault s).provider
  | .asLocal path tmp => (as_local_file p path tmp fault s).provider
  | .delete path => (delete_file p path fault s).provider
  | .deleteAll => (delete_all_files p fault s).provider

/-- The SDK requests issued while running a method call. -/
def opTrace (p : S3StorageProvider) (c : OpCall) (fault : Option String)
    (s : S3State) : List SDKReq :=
  match c with
  | .upload contents fn => (upload_file p contents fn fault s).trace
  | .get path => (get_file p path fault s).trace
  | .asLocal path tmp => (as_local_file p path tmp fault s).trace
  | .delete path => (delete_file p path fault s).trace
  | .deleteAll => (delete_all_files p fault s).trace

/-! Helper lemmas about the split functions and the backend state. -/

theorem pySplit_of_none {sep s : Str} (h : splitOnce sep s = none) :
    pySplit sep s = [s] := by
  conv_lhs => rw [pySplit]
  split <;> simp_all

theorem pySplit_of_some {sep s a b : Str} (h : splitOnce sep s = some (a, b)) :
    pySplit sep s = a :: pySplit sep b := by
  conv_lhs => rw [pySplit]
  split <;> simp_all

theorem pySplit_two {sep s a b : Str} (h1 : splitOnce sep s = some (a, b))
    (h2 : splitOnce sep b = none) : pySplit sep s = [a, b] := by
  rw [pySplit_of_some h1, pySplit_of_none h2]

theorem pySplit_three {sep s a b c d : Str} (h1 : splitOnce sep s = some (a, b))
    (h2 : splitOnce sep b = some (c, d)) (h3 : splitOnce sep d = none) :
    pySplit sep s = [a, c, d] := by
  rw [pySplit_of_some h1, pySplit_of_some h2, pySplit_of_none h3]

theorem isPre_append_self (sep t : Str) : isPre sep (sep ++ t) = true := by
  induction sep with
  | nil => rfl
  | cons c cs ih => simp [isPre, ih]

theorem splitOnce_sep_append {sep : Str} (hsep : sep ≠ []) (t : Str) :
    splitOnce sep (sep ++ t) = some ([], t) := by
  cases sep with
  | nil => exact absurd rfl hsep
  | cons d ds =>
    show splitOnce (d :: ds) (d :: (ds ++ t)) = some ([], t)
    unfold splitOnce
    rw [if_neg (by simp)]
    rw [if_pos (by exact isPre_append_self (d :: ds) t)]
    simp [List.drop_left]

theorem splitOnce_none_of_no_substr {sep s : Str} (h : hasSubstr sep s = false) :
    splitOnce sep s = none := by
  induction s with
  | nil => rfl
  | cons c rest ih =>
    unfold hasSubstr at h
    rw [Bool.or_eq_false_iff] at h
    unfold splitOnce
    by_cases hsep : sep = []
    · rw [if_pos hsep]
    · rw [if_neg hsep, if_neg (by simp [h.1]), ih h.2]

theorem splitOnce_slash_append {bn : Str} (hbn : ('/' : Char) ∉ bn) (t : Str) :
    splitOnce slashSep (bn ++ '/' :: t) = some (bn, t) := by
  induction bn with
  | nil =>
    show splitOnce slashSep ('/' :: t) = some ([], t)
    unfold splitOnce
    rw [if_neg (by simp [slashSep]), if_pos (by simp [isPre, slashSep])]
    rfl
  | cons c cs ih =>
    have hc : c ≠ '/' := fun hc => hbn (hc ▸ List.mem_cons_self c cs)
    have hcs : ('/' : Char) ∉ cs := fun hm => hbn (List.mem_cons_of_mem c hm)
    show splitOnce slashSep (c :: (cs ++ '/' :: t)) = some (c :: cs, t)
    unfold splitOnce
    rw [if_neg (by simp [slashSep])]
    rw [if_neg (by simp [isPre, slashSep]; exact fun he => absurd he.symm hc)]
    rw [ih hcs]

theorem bucket_name_and_key_eval {path rest b k : Str}
    (h1 : (pySplit s3sep path).get? 1 = some rest)
    (hsl : splitOnce slashSep rest = some (b, k)) :
    bucket_name_and_key path = Except.ok (b, k) := by
  unfold bucket_name_and_key
  simp only [h1, hsl]

theorem getObj_putObj_self (b k : Str) (body : Bytes) (s : S3State) :
    getObj b k (putObj b k body s) = some body := by
  simp [putObj, getObj]

theorem getObj_delByPfx (b2 pfx b k : Str) (s : S3State) :
    getObj b k (delByPfx b2 pfx s) =
      if b = b2 ∧ isPre pfx k = true then none else getObj b k s := by
  induction s with
  | nil => cases h : decide (b = b2 ∧ isPre pfx k = true) <;> simp [delByPfx, getObj]
  | cons e rest ih =>
    simp only [delByPfx]
    by_cases hdel : e.1.1 = b2 ∧ isPre pfx e.1.2 = true
    · rw [if_pos hdel, ih]
      by_cases hbk : b = b2 ∧ isPre pfx k = true
      · rw [if_pos hbk, if_pos hbk]
      · rw [if_neg hbk, if_neg hbk]
        have hne : e.1 ≠ (b, k) := by
          intro he
          have he1 : e.1.1 = b := by rw [he]
          have he2 : e.1.2 = k := by rw [he]
          exact hbk ⟨by rw [← he1]; exact hdel.1, by rw [← he2]; exact hdel.2⟩
        rw [getObj, if_neg hne]
    · rw [if_neg hdel]
      rw [getObj, ih]
      by_cases he : e.1 = (b, k)
      · rw [if_pos he]
        have hbk : ¬(b = b2 ∧ isPre pfx k = true) := by
          intro hc
          have he1 : e.1.1 = b := by rw [he]
          have he2 : e.1.2 = k := by rw [he]
          exact hdel ⟨by rw [he1]; exact hc.1, by rw [he2]; exact hc.2⟩
        rw [if_neg hbk, getObj, if_pos he]
      · rw [if_neg he, getObj, if_neg he]

/-! Claim theorems. -/

/-- C1: the claim says `get_file(path)` yields the stored object as a
stream of byte chunks rather than failing.  The code disagrees: the class
never defines `STREAMING_CHUNK_SIZE`, so every call — whatever the
provider, path, backend state, and even with a perfectly healthy backend
(`fault = none`) — raises `RuntimeError`; no chunk is ever produced. -/
theorem C1_get_file_always_raises (p : S3StorageProvider) (path : Str)
    (fault : Option String) (s : S3State) :
    ∃ m, (get_file p path fault s).result = Except.error (Err.runtimeError m) := by
  unfold get_file
  split
  · exact ⟨_, rfl⟩
  · split
    · exact ⟨_, rfl⟩
    · split
      · exact ⟨_, rfl⟩
      · exact ⟨_, rfl⟩

/-- C2: the claim says that after `upload_file` returns path `p`,
`delete_file(p)` removes the uploaded object.  The code disagrees:
`delete_file` passes the whole `s3://...` path as the S3 `Key` instead of
the key `bucket_prefix + "/" + filename` the object was stored under, so
the call reports success while the uploaded object is still there.
Concretely: bucket `"b"`, prefix `"p"`, filename `"f"`, contents `[1]`;
the returned path is `"s3://b/p/f"`, and after `delete_file` on it the
object at key `"p/f"` still holds `[1]`. -/
theorem C2_delete_file_leaves_uploaded_object :
    (upload_file ⟨['b'], ['p']⟩ [1] ['f'] none []).result =
      Except.ok ([1], "s3://b/p/f".toList) ∧
    (delete_file ⟨['b'], ['p']⟩ "s3://b/p/f".toList none
        (upload_file ⟨['b'], ['p']⟩ [1] ['f'] none []).state).result = Except.ok () ∧
    getObj ['b'] "p/f".toList
        ((delete_file ⟨['b'], ['p']⟩ "s3://b/p/f".toList none
          (upload_file ⟨['b'], ['p']⟩ [1] ['f'] none []).state).state) = some [1] :=
  ⟨rfl, rfl, rfl⟩

/-- C3: for non-empty contents `c` and any filename, a successful
`upload_file` stores `c` in the backend (under key
`bucket_prefix + "/" + filename`) and returns `(c, path)` with
`path = "s3://" + bucket_name + "/" + bucket_prefix + "/" + filename`. -/
theorem C3_upload_file_stores_and_returns (p : S3StorageProvider)
    (contents : Bytes) (filename : Str) (s : S3State) (hne : contents ≠ []) :
    (upload_file p contents filename none s).result =
      Except.ok (contents,
        s3sep ++ p.bucketName ++ slashSep ++ p.bucketPfx ++ slashSep ++ filename) ∧
    getObj p.bucketName (p.bucketPfx ++ slashSep ++ filename)
        (upload_file p contents filename none s).state = some contents := by
  unfold upload_file
  rw [if_neg hne]
  exact ⟨rfl, getObj_putObj_self _ _ _ _⟩

/-- Witness for C3 at bucket `"b"`, prefix `"p"`, filename `"f"`,
contents `[1]`, empty backend. -/
theorem C3_witness :
    (upload_file ⟨['b'], ['p']⟩ [1] ['f'] none []).result =
      Except.ok ([1],
        s3sep ++ ['b'] ++ slashSep ++ ['p'] ++ slashSep ++ ['f']) ∧
    getObj ['b'] (['p'] ++ slashSep ++ ['f'])
        (upload_file ⟨['b'], ['p']⟩ [1] ['f'] none []).state = some [1] :=
  C3_upload_file_stores_and_returns ⟨['b'], ['p']⟩ [1] ['f'] [] (by decide)

/-- C4: for any stored object reachable at a well-formed `s3://` path
(the path parses to a bucket and key holding `body`), `as_local_file`
succeeds and yields the temporary file name, the temporary file holding
exactly the object bytes for the duration of the context. -/
theorem C4_as_local_file_materializes (p : S3StorageProvider) (path b k : Str)
    (body : Bytes) (tmpName : String) (s : S3State)
    (hparse : bucket_name_and_key path = Except.ok (b, k))
    (hobj : getObj b k s = some body) :
    (as_local_file p path tmpName none s).result = Except.ok (tmpName, body) := by
  simp only [as_local_file, hparse, hobj]

/-- Witness for C4: path `"s3://b/p/f"`, object `[7]` stored at bucket
`"b"`, key `"p/f"`, temporary file `"/tmp/tmpabc123"`. -/
theorem C4_witness :
    (as_local_file ⟨['b'], ['p']⟩ "s3://b/p/f".toList "/tmp/tmpabc123" none
        [((['b'], "p/f".toList), [7])]).result = Except.ok ("/tmp/tmpabc123", [7]) :=
  C4_as_local_file_materializes ⟨['b'], ['p']⟩ "s3://b/p/f".toList ['b'] "p/f".toList
    [7] "/tmp/tmpabc123" [((['b'], "p/f".toList), [7])]
    (bucket_name_and_key_eval
      (by
        rw [pySplit_two
          (show splitOnce s3sep "s3://b/p/f".toList = some ([], "b/p/f".toList) from rfl)
          (show splitOnce s3sep "b/p/f".toList = none from rfl)]
        rfl)
      (show splitOnce slashSep "b/p/f".toList = some (['b'], "p/f".toList) from rfl))
    rfl

/-- C5, counterexample: the claim says a successful `delete_all_files`
leaves the bucket with no objects, for every backend state.  With bucket
`"b"`, prefix `"p"` and a backend holding an object at key `"x"` (which
does not start with the prefix), the call succeeds yet the bucket still
holds that object: the code only deletes keys matching
`Prefix=self.bucket_prefix`. -/
theorem C5_counterexample :
    (delete_all_files ⟨['b'], ['p']⟩ none [((['b'], ['x']), [1])]).result =
      Except.ok () ∧
    (delete_all_files ⟨['b'], ['p']⟩ none [((['b'], ['x']), [1])]).state =
      [((['b'], ['x']), [1])] :=
  ⟨rfl, rfl⟩

/-- C5, amended: a successful `delete_all_files` deletes exactly the
objects of the configured bucket whose key starts with the bucket
prefix; every other object (other buckets, or keys without the prefix)
is untouched. -/
theorem C5_delete_all_files_deletes_prefixed (p : S3StorageProvider)
    (s : S3State) (b k : Str) :
    (delete_all_files p none s).result = Except.ok () ∧
    getObj b k (delete_all_files p none s).state =
      (if b = p.bucketName ∧ isPre p.bucketPfx k = true then none
       else getObj b k s) :=
  ⟨rfl, getObj_delByPfx p.bucketName p.bucketPfx b k s⟩

/-- C6: no provider state outlives a call: every one of the five methods
leaves the provider object — in particular the fields `bucket_name` and
`bucket_prefix` set in `__init__` — exactly as it was, on success and on
failure alike. -/
theorem C6_provider_unchanged (p : S3StorageProvider) (c : OpCall)
    (fault : Option String) (s : S3State) :
    opProvider p c fault s = p := by
  cases c with
  | upload contents fn =>
    simp only [opProvider]
    unfold upload_file
    repeat' split
    all_goals rfl
  | get path =>
    simp only [opProvider]
    unfold get_file
    repeat' split
    all_goals rfl
  | asLocal path tmp =>
    simp only [opProvider]
    unfold as_local_file
    repeat' split
    all_goals rfl
  | delete path =>
    simp only [opProvider]
    unfold delete_file
    repeat' split
    all_goals rfl
  | deleteAll =>
    simp only [opProvider]
    unfold delete_all_files
    repeat' split
    all_goals rfl

/-- C7: no retries: each of the five methods issues at most one SDK
request per call — also when the request fails (the failure is raised at
once, with no second attempt). -/
theorem C7_at_most_one_request (p : S3StorageProvider) (c : OpCall)
    (fault : Option String) (s : S3State) :
    (opTrace p c fault s).length ≤ 1 := by
  cases c with
  | upload contents fn =>
    simp only [opTrace]
    unfold upload_file
    repeat' split
    all_goals simp
  | get path =>
    simp only [opTrace]
    unfold get_file
    repeat' split
    all_goals simp
  | asLocal path tmp =>
    simp only [opTrace]
    unfold as_local_file
    repeat' split
    all_goals simp
  | delete path =>
    simp only [opTrace]
    unfold delete_file
    repeat' split
    all_goals simp
  | deleteAll =>
    simp only [opTrace]
    unfold delete_all_files
    repeat' split
    all_goals simp

/-- C8, counterexample: the claim quantifies over every filename, but the
round trip breaks when the filename itself contains `"s3://"`.  With
bucket `"b"`, empty prefix and filename `"xs3://y"`, `upload_file` passes
the key `"/xs3://y"` to `put_object` and returns the path
`"s3://b//xs3://y"`; `_bucket_name_and_key` parses that path to bucket
`"b"` and key `"/x"` — `split("s3://")[1]` truncates at the second
occurrence of `"s3://"` — so the parsed key differs from the stored key. -/
theorem C8_counterexample :
    (upload_file ⟨['b'], []⟩ [1] "xs3://y".toList none []).result =
      Except.ok ([1], "s3://b//xs3://y".toList) ∧
    (upload_file ⟨['b'], []⟩ [1] "xs3://y".toList none []).trace =
      [SDKReq.putObject ['b'] "/xs3://y".toList [1]] ∧
    bucket_name_and_key "s3://b//xs3://y".toList = Except.ok (['b'], "/x".toList) ∧
    ("/x".toList : Str) ≠ "/xs3://y".toList := by
  refine ⟨rfl, rfl, ?_, by decide⟩
  exact bucket_name_and_key_eval
    (by
      rw [pySplit_three
        (show splitOnce s3sep "s3://b//xs3://y".toList =
          some ([], "b//xs3://y".toList) from rfl)
        (show splitOnce s3sep "b//xs3://y".toList =
          some ("b//x".toList, ['y']) from rfl)
        (show splitOnce s3sep ['y'] = none from rfl)]
      rfl)
    (show splitOnce slashSep "b//x".toList = some (['b'], "/x".toList) from rfl)

/-- C8, amended: for every filename, as long as the bucket name contains
no `"/"` and the concatenation `bucket_name + "/" + bucket_prefix + "/" +
filename` contains no occurrence of `"s3://"` (in particular for every
ordinary filename, and also when the bucket prefix is empty), parsing the
path returned by `upload_file` with `_bucket_name_and_key` yields exactly
the bucket name and the key that `upload_file` passed to `put_object`. -/
theorem C8_roundtrip (p : S3StorageProvider) (contents : Bytes)
    (filename : Str) (s : S3State) (hne : contents ≠ [])
    (hbn : ('/' : Char) ∉ p.bucketName)
    (hs3 : hasSubstr s3sep
      (p.bucketName ++ slashSep ++ p.bucketPfx ++ slashSep ++ filename) = false) :
    (upload_file p contents filename none s).result =
      Except.ok (contents,
        s3sep ++ p.bucketName ++ slashSep ++ p.bucketPfx ++ slashSep ++ filename) ∧
    (upload_file p contents filename none s).trace =
      [SDKReq.putObject p.bucketName (p.bucketPfx ++ slashSep ++ filename) contents] ∧
    bucket_name_and_key
        (s3sep ++ p.bucketName ++ slashSep ++ p.bucketPfx ++ slashSep ++ filename) =
      Except.ok (p.bucketName, p.bucketPfx ++ slashSep ++ filename) := by
  refine ⟨?_, ?_, ?_⟩
  · unfold upload_file
    rw [if_neg hne]
  · unfold upload_file
    rw [if_neg hne]
  · have h1 : splitOnce s3sep
        (s3sep ++ p.bucketName ++ slashSep ++ p.bucketPfx ++ slashSep ++ filename) =
        some ([], p.bucketName ++ slashSep ++ p.bucketPfx ++ slashSep ++ filename) := by
      simpa [List.append_assoc] using
        splitOnce_sep_append (by decide)
          (p.bucketName ++ slashSep ++ p.bucketPfx ++ slashSep ++ filename)
    have h2 : splitOnce s3sep
        (p.bucketName ++ slashSep ++ p.bucketPfx ++ slashSep ++ filename) = none :=
      splitOnce_none_of_no_substr hs3
    have h3 : splitOnce slashSep
        (p.bucketName ++ slashSep ++ p.bucketPfx ++ slashSep ++ filename) =
        some (p.bucketName, p.bucketPfx ++ slashSep ++ filename) := by
      simpa [slashSep, List.append_assoc] using
        splitOnce_slash_append hbn (p.bucketPfx ++ slashSep ++ filename)
    exact bucket_name_and_key_eval (by rw [pySplit_two h1 h2]; rfl) h3

/-- Witness for C8 (amended) at bucket `"b"`, empty prefix, filename
`"f"`, contents `[1]`, empty backend. -/
theorem C8_witness :
    (upload_file ⟨['b'], []⟩ [1] ['f'] none []).result =
      Except.ok ([1], s3sep ++ ['b'] ++ slashSep ++ [] ++ slashSep ++ ['f']) ∧
    (upload_file ⟨['b'], []⟩ [1] ['f'] none []).trace =
      [SDKReq.putObject ['b'] (([] : Str) ++ slashSep ++ ['f']) [1]] ∧
    bucket_name_and_key (s3sep ++ ['b'] ++ slashSep ++ [] ++ slashSep ++ ['f']) =
      Except.ok (['b'], ([] : Str) ++ slashSep ++ ['f']) :=
  C8_roundtrip ⟨['b'], []⟩ [1] ['f'] [] (by decide) (by decide) (by decide)

/-- C9: `upload_file` raises `ValueError` exactly when the contents read
from the file are empty, and in that case nothing touches the backend:
the state is unchanged and no SDK request is issued. -/
theorem C9_valueError_iff_empty (p : S3StorageProvider) (contents : Bytes)
    (fn : Str) (fault : Option String) (s : S3State) :
    ((∃ m, (upload_file p contents fn fault s).result =
        Except.error (Err.valueError m)) ↔ contents = []) ∧
    (contents = [] →
      (upload_file p contents fn fault s).state = s ∧
      (upload_file p contents fn fault s).trace = []) := by
  constructor
  · constructor
    · rintro ⟨m, hm⟩
      by_contra hc
      unfold upload_file at hm
      rw [if_neg hc] at hm
      cases fault with
      | some e => simp at hm
      | none => simp at hm
    · intro hc
      refine ⟨EMPTY_CONTENT, ?_⟩
      unfold upload_file
      rw [if_pos hc]
  · intro hc
    unfold upload_file
    rw [if_pos hc]
    exact ⟨rfl, rfl⟩

/-- Witness for C9 at empty contents: the state stays empty and no
request is issued. -/
theorem C9_witness :
    (upload_file ⟨['b'], ['p']⟩ [] ['f'] none []).state = ([] : S3State) ∧
    (upload_file ⟨['b'], ['p']⟩ [] ['f'] none []).trace = [] :=
  (C9_valueError_iff_empty ⟨['b'], ['p']⟩ [] ['f'] none []).2 rfl

/-- C10: every failure of `get_file`, `as_local_file`, `delete_file`,
`delete_all_files` — and of `upload_file` once its contents are
non-empty — surfaces as a `RuntimeError`: whatever exception the body
raises (backend fault, malformed path in `_bucket_name_and_key`, missing
key, the undefined chunk-size attribute), the escaping exception is
`RuntimeError`, never anything else. -/
theorem C10_failures_are_runtimeError :
    (∀ p contents fn fault s e, contents ≠ [] →
        (upload_file p contents fn fault s).result = Except.error e →
        ∃ m, e = Err.runtimeError m) ∧
    (∀ p path fault s e,
        (get_file p path fault s).result = Except.error e →
        ∃ m, e = Err.runtimeError m) ∧
    (∀ p path tmp fault s e,
        (as_local_file p path tmp fault s).result = Except.error e →
        ∃ m, e = Err.runtimeError m) ∧
    (∀ p path fault s e,
        (delete_file p path fault s).result = Except.error e →
        ∃ m, e = Err.runtimeError m) ∧
    (∀ p fault s e,
        (delete_all_files p fault s).result = Except.error e →
        ∃ m, e = Err.runtimeError m) := by
  refine ⟨?_, ?_, ?_, ?_, ?_⟩
  · intro p contents fn fault s e hne h
    unfold upload_file at h
    rw [if_neg hne] at h
    cases fault with
    | some msg =>
      injection h with h2
      exact ⟨_, h2.symm⟩
    | none => cases h
  · intro p path fault s e h
    unfold get_file at h
    repeat' split at h
    all_goals
      first
      | (injection h with h2; exact ⟨_, h2.symm⟩)
      | (injection h)
  · intro p path tmp fault s e h
    unfold as_local_file at h
    repeat' split at h
    all_goals
      first
      | (injection h with h2; exact ⟨_, h2.symm⟩)
      | (injection h)
  · intro p path fault s e h
    unfold delete_file at h
    repeat' split at h
    all_goals
      first
      | (injection h with h2; exact ⟨_, h2.symm⟩)
      | (injection h)
  · intro p fault s e h
    unfold delete_all_files at h
    repeat' split at h
    all_goals
      first
      | (injection h with h2; exact ⟨_, h2.symm⟩)
      | (injection h)

/-- Witness for C10: a failing `delete_file` raises a `RuntimeError`. -/
theorem C10_witness :
    ∃ m, Err.runtimeError
        ("Error deleting file " ++ "x" ++ " from S3: " ++ "boom") =
      Err.runtimeError m :=
  C10_failures_are_runtimeError.2.2.2.1 ⟨['b'], ['p']⟩ ['x'] (some "boom") [] _ rfl

end S3Storage
